import Mathlib

/-!
Shallow embedding of the `SQLiteOperator` class (src/new_test.py, with the
validating `get_table_column_info` variant from src/SQLiteOperator.py).

Python object state is an explicit `OpState` record; every method becomes a
function from state to `Except (PyExc × OpState) (result × OpState × trace)`:
an uncaught Python exception is `.error (exc, stateAtRaise)`, a normal return
is `.ok`.  Backend behaviour (sqlite3) is a parameter `Backend`: the table's
metadata rows, whether `sqlite3.connect` succeeds, and which statements the
engine accepts.  Each backend interaction is recorded as an `Event` so that
claims about "exactly one query", FIFO order, commit counts, etc. are
statements about the emitted trace.
-/

namespace SQLiteOp

/-- A SQLite value as seen through the Python driver (enough for the claims:
integers, strings and NULL/None). -/
inductive Value
  | intV : Int → Value
  | strV : String → Value
  | nullV : Value
deriving DecidableEq, Repr

/-- One row of `PRAGMA table_info`: (cid, name, type, notnull, dflt_value, pk),
exactly the 6-tuple sqlite3 returns per column. -/
structure Column where
  cid : Int
  name : String
  typ : String
  notnull : Int
  dflt : Value
  pk : Int
deriving DecidableEq, Repr

/-- The Python 6-tuple a `Column` row is fetched as; `column[1]` is the name,
`column[5]` the pk flag. -/
def Column.tuple (c : Column) : List Value :=
  [Value.intV c.cid, Value.strV c.name, Value.strV c.typ,
   Value.intV c.notnull, c.dflt, Value.intV c.pk]

/-- Uncaught Python exceptions that the modelled methods can raise. -/
inductive PyExc
  | attributeError
  | indexError
  | typeError
  | connectionError
deriving DecidableEq, Repr

/-- The `self.connection` attribute: `None`, an open connection object, or a
connection object that has been `close()`d (still truthy in Python). -/
inductive Handle
  | hNone
  | hOpen
  | hClosed
deriving DecidableEq, Repr

/-- Backend interactions, recorded in order.  `exec q p ok` is one
`cursor.execute` that reached the engine; `ok` says whether the engine
accepted it (on `false` the executor catches `sqlite3.Error` and only
prints).  `metaQuery` is the `PRAGMA table_info` metadata query. -/
inductive Event
  | connect
  | metaQuery
  | exec (query : String) (params : List Value) (ok : Bool)
  | commit
  | rollback
  | disconnect
deriving DecidableEq, Repr

/-- The mutable attributes of a `SQLiteOperator` instance.  `cursorSet` is
whether `self.cursor` is not `None` (it is set by `connect` and never reset,
even by `disconnect`). -/
structure OpState where
  database_name : String
  table_name : String
  connection : Handle
  cursorSet : Bool
  table_info : Option (List Column)
  insert_buffer : List (List String × List Value)
  buffer_limit : Nat
deriving DecidableEq, Repr

/-- `__init__`: the buffer limit defaults to 100. -/
def init (db table : String) : OpState :=
  { database_name := db
    table_name := table
    connection := Handle.hNone
    cursorSet := false
    table_info := none
    insert_buffer := []
    buffer_limit := 100 }

/-- The sqlite3 engine, abstracted: the metadata rows of the target table,
whether `sqlite3.connect` succeeds, and which statements it accepts. -/
structure Backend where
  schema : List Column
  connectOk : Bool
  stmtOk : String → List Value → Bool

/-- Result of a method: an uncaught exception with the object state at the
moment of the raise, or a value, the new state and the backend trace. -/
abbrev Res (α : Type) := Except (PyExc × OpState) (α × OpState × List Event)

/-- `connect`: `sqlite3.connect` then `connection.cursor()`.  If the file
cannot be opened, `sqlite3.connect` raises before any attribute is assigned,
so the state is unchanged at the raise. -/
def connect (B : Backend) (s : OpState) : Res Unit :=
  if B.connectOk then
    Except.ok ((), { s with connection := Handle.hOpen, cursorSet := true },
      [Event.connect])
  else Except.error (PyExc.connectionError, s)

/-- `disconnect`: `if self.connection: self.connection.close()`.  A closed
connection object is still truthy, so `close` is called whenever a
connection was ever opened; `self.cursor` is left as-is. -/
def disconnect (s : OpState) : OpState × List Event :=
  if s.connection ≠ Handle.hNone then
    ({ s with connection := Handle.hClosed }, [Event.disconnect])
  else (s, [])

/-- What one `cursor.execute` call returned: normally, or with the caught
`sqlite3.Error` branch taken (error printed, no effect). -/
inductive ExecOutcome
  | success
  | reported
deriving DecidableEq, Repr

/-- `execute_with_handling`: if `self.cursor` is `None`, attribute access on
`None` raises an (uncaught) `AttributeError`; if the cursor's connection has
been closed, `cursor.execute` raises `sqlite3.ProgrammingError`, which IS a
`sqlite3.Error` and thus caught and only printed; otherwise the statement
reaches the engine, and an engine rejection is likewise caught and printed. -/
def execute_with_handling (B : Backend) (s : OpState) (query : String)
    (params : List Value) : Res ExecOutcome :=
  if s.cursorSet = false then Except.error (PyExc.attributeError, s)
  else if s.connection ≠ Handle.hOpen then
    Except.ok (ExecOutcome.reported, s, [])
  else if B.stmtOk query params then
    Except.ok (ExecOutcome.success, s, [Event.exec query params true])
  else
    Except.ok (ExecOutcome.reported, s, [Event.exec query params false])

/-- The INSERT statement `_insert_data` builds: comma-joined column names and
one `?` placeholder per column. -/
def mkInsertQuery (table : String) (names : List String) : String :=
  "INSERT INTO " ++ table ++ " (" ++ String.intercalate ", " names ++
    ") VALUES (" ++ String.intercalate ", " (names.map fun _ => "?") ++ ")"

/-- `_insert_data`: build the INSERT and run it through the executor. -/
def insert_data (B : Backend) (s : OpState) (names : List String)
    (vals : List Value) : Res ExecOutcome :=
  execute_with_handling B s (mkInsertQuery s.table_name names) vals

/-- The `for column_names, column_values in self.insert_buffer` loop of
`execute_buffered_inserts`, front to back. -/
def flushLoop (B : Backend) (s : OpState) :
    List (List String × List Value) → Res Unit
  | [] => Except.ok ((), s, [])
  | (names, vals) :: rest =>
    match insert_data B s names vals with
    | Except.error e => Except.error e
    | Except.ok (_, s1, e1) =>
      match flushLoop B s1 rest with
      | Except.error e => Except.error e
      | Except.ok (_, s2, e2) => Except.ok ((), s2, e1 ++ e2)

/-- `commit`: `self.connection.commit()`.  On `None` this is an attribute
error; in every modelled flow it is called right after a successful
`connect`, i.e. on an open connection, where it succeeds. -/
def commit (s : OpState) : Res Unit :=
  match s.connection with
  | Handle.hNone => Except.error (PyExc.attributeError, s)
  | Handle.hClosed => Except.error (PyExc.connectionError, s)
  | Handle.hOpen => Except.ok ((), s, [Event.commit])

/-- `rollback`: `self.connection.rollback()`, same shape as `commit`. -/
def rollback (s : OpState) : Res Unit :=
  match s.connection with
  | Handle.hNone => Except.error (PyExc.attributeError, s)
  | Handle.hClosed => Except.error (PyExc.connectionError, s)
  | Handle.hOpen => Except.ok ((), s, [Event.rollback])

/-- `execute_buffered_inserts`: connect, run `_insert_data` for every
buffered row in order, commit once, disconnect, then clear the buffer.
The clearing assignment is the LAST statement, so it runs only if nothing
before it raised. -/
def execute_buffered_inserts (B : Backend) (s : OpState) : Res Unit :=
  match connect B s with
  | Except.error e => Except.error e
  | Except.ok (_, s1, e1) =>
    match flushLoop B s1 s1.insert_buffer with
    | Except.error e => Except.error e
    | Except.ok (_, s2, e2) =>
      match commit s2 with
      | Except.error e => Except.error e
      | Except.ok (_, s3, e3) =>
        let (s4, e4) := disconnect s3
        Except.ok ((), { s4 with insert_buffer := [] }, e1 ++ e2 ++ e3 ++ e4)

/-- `buffer_insert`: append the pair unconditionally, then flush when the
buffer length has reached the limit. -/
def buffer_insert (B : Backend) (s : OpState) (names : List String)
    (vals : List Value) : Res Unit :=
  let s1 := { s with insert_buffer := s.insert_buffer ++ [(names, vals)] }
  if s1.insert_buffer.length ≥ s1.buffer_limit then
    execute_buffered_inserts B s1
  else Except.ok ((), s1, [])

/-- Python truthiness of `self.table_info` in `if not self.table_info`:
`None` and the empty list are both falsy. -/
def tableInfoFalsy : Option (List Column) → Bool
  | none => true
  | some l => l.isEmpty

/-- `get_table_info`: on a falsy cache, connect, run the metadata query,
cache `fetchall()`, disconnect; otherwise return the cache.  `PRAGMA
table_info` is a read-only metadata statement sqlite3 never rejects (a
missing table just yields no rows), so the executor takes its success
branch and `fetchall` returns the backend's metadata rows. -/
def get_table_info (B : Backend) (s : OpState) : Res (List Column) :=
  if tableInfoFalsy s.table_info then
    match connect B s with
    | Except.error e => Except.error e
    | Except.ok (_, s1, _) =>
      let s2 := { s1 with table_info := some B.schema }
      let (s3, e3) := disconnect s2
      Except.ok (B.schema, s3, [Event.connect, Event.metaQuery] ++ e3)
  else
    Except.ok (s.table_info.getD [], s, [])

/-- Python indexing `t[i]` on a tuple of length `len`: non-negative indices
below `len`, negative indices from the end (`-1` is the last element). -/
def pyIndex (len : Nat) (i : Int) : Option Nat :=
  if 0 ≤ i then (if i < (len : Int) then some i.toNat else none)
  else (if 0 ≤ (len : Int) + i then some ((len : Int) + i).toNat else none)

/-- `column[i]` on the fetched 6-tuple; out of range raises `IndexError`. -/
def tupleGet (c : Column) (i : Int) : Except PyExc Value :=
  match pyIndex (Column.tuple c).length i with
  | some n => Except.ok ((Column.tuple c).getD n Value.nullV)
  | none => Except.error PyExc.indexError

/-- The dict comprehension
`\x7bcolumn[1]: column[info_index] for column in table_info\x7d`, as an
association list in column order (names are unique, so no key collisions). -/
def projectColumns (cols : List Column) (i : Int) :
    Except PyExc (List (String × Value)) :=
  match cols with
  | [] => Except.ok []
  | c :: rest =>
    match tupleGet c i with
    | Except.error e => Except.error e
    | Except.ok v =>
      match projectColumns rest i with
      | Except.error e => Except.error e
      | Except.ok tail => Except.ok ((c.name, v) :: tail)

/-- `get_column_info` (new_test.py): no validation of `info_index` at all,
just the dict comprehension over `get_table_info()`. -/
def get_column_info (B : Backend) (s : OpState) (info_index : Int) :
    Res (List (String × Value)) :=
  match get_table_info B s with
  | Except.error e => Except.error e
  | Except.ok (ti, s1, e1) =>
    match projectColumns ti info_index with
    | Except.error exc => Except.error (exc, s1)
    | Except.ok pairs => Except.ok (pairs, s1, e1)

/-- `get_table_column_info` (SQLiteOperator.py): `TypeError` when the index
is missing, `IndexError` when it exceeds 5, then the same comprehension.
There is no lower-bound check, so negative indices fall through to Python
tuple indexing. -/
def get_table_column_info (B : Backend) (s : OpState)
    (info_index : Option Int) : Res (List (String × Value)) :=
  match info_index with
  | none => Except.error (PyExc.typeError, s)
  | some i =>
    if i > 5 then Except.error (PyExc.indexError, s)
    else get_column_info B s i

/-- `get_column_names`: `column[1]` for every fetched row. -/
def get_column_names (B : Backend) (s : OpState) : Res (List String) :=
  match get_table_info B s with
  | Except.error e => Except.error e
  | Except.ok (ti, s1, e1) => Except.ok (ti.map Column.name, s1, e1)

/-- `get_primary_key`: names of rows with `column[5] == 1`, first one or
`None`. -/
def get_primary_key (B : Backend) (s : OpState) : Res (Option String) :=
  match get_table_info B s with
  | Except.error e => Except.error e
  | Except.ok (ti, s1, e1) =>
    let primary_keys := (ti.filter fun c => c.pk == 1).map Column.name
    Except.ok (primary_keys.head?, s1, e1)

/-- `__enter__`: connect (and hand the instance back). -/
def enterScope (B : Backend) (s : OpState) : Res Unit :=
  connect B s

/-- `__exit__`: commit when the block raised no exception, roll back when it
did, then disconnect in both cases. -/
def exitScope (s : OpState) (excRaised : Bool) : Res Unit :=
  match (if excRaised then rollback s else commit s) with
  | Except.error e => Except.error e
  | Except.ok (_, s1, e1) =>
    let (s2, e2) := disconnect s1
    Except.ok ((), s2, e1 ++ e2)

/-- `n` successive calls of `get_table_info` on the same instance, collecting
every call's return value and the concatenated backend trace. -/
def iterGetTableInfo (B : Backend) : Nat → OpState →
    Except (PyExc × OpState) (List (List Column) × OpState × List Event)
  | 0, s => Except.ok ([], s, [])
  | n + 1, s =>
    match get_table_info B s with
    | Except.error e => Except.error e
    | Except.ok (ti, s1, e1) =>
      match iterGetTableInfo B n s1 with
      | Except.error e => Except.error e
      | Except.ok (tis, s2, e2) => Except.ok (ti :: tis, s2, e1 ++ e2)

/-! Concrete fixtures for witnesses and counterexamples. -/

/-- A backend that connects and accepts every statement; empty table. -/
def okBackend : Backend := ⟨[], true, fun _ _ => true⟩

/-- A backend that connects but rejects every statement. -/
def rejectBackend : Backend := ⟨[], true, fun _ _ => false⟩

/-- A backend whose `sqlite3.connect` fails (file unopenable). -/
def noConnBackend : Backend := ⟨[], false, fun _ _ => true⟩

/-- An INTEGER PRIMARY KEY column, as `PRAGMA table_info` reports it. -/
def idCol : Column := ⟨0, "id", "INTEGER", 0, Value.nullV, 1⟩

/-- A TEXT column with no primary-key flag. -/
def nameCol : Column := ⟨1, "name", "TEXT", 1, Value.nullV, 0⟩

/-- A backend for a one-column table `(id INTEGER PRIMARY KEY)`. -/
def idBackend : Backend := ⟨[idCol], true, fun _ _ => true⟩

/-- A backend for a keyless one-column table. -/
def keylessBackend : Backend := ⟨[nameCol], true, fun _ _ => true⟩

/-- The trace event of one buffered row's INSERT attempt. -/
def rowEvent (B : Backend) (table : String) (r : List String × List Value) :
    Event :=
  Event.exec (mkInsertQuery table r.1) r.2
    (B.stmtOk (mkInsertQuery table r.1) r.2)

/-! Evaluation lemmas about the embedded methods. -/

theorem connect_eval (B : Backend) (s : OpState) (h : B.connectOk = true) :
    connect B s = Except.ok ((),
      { s with connection := Handle.hOpen, cursorSet := true },
      [Event.connect]) := by
  simp [connect, h]

theorem execOpen_eval (B : Backend) (s : OpState) (q : String)
    (p : List Value) (hc : s.cursorSet = true)
    (ho : s.connection = Handle.hOpen) :
    execute_with_handling B s q p = Except.ok
      ((if B.stmtOk q p then ExecOutcome.success else ExecOutcome.reported),
        s, [Event.exec q p (B.stmtOk q p)]) := by
  by_cases hs : B.stmtOk q p <;> simp [execute_with_handling, hc, ho, hs]

theorem flushLoop_open (B : Backend) (s : OpState) (hc : s.cursorSet = true)
    (ho : s.connection = Handle.hOpen) :
    ∀ rows, flushLoop B s rows =
      Except.ok ((), s, rows.map (rowEvent B s.table_name))
  | [] => by simp [flushLoop]
  | (names, vals) :: rest => by
    have h1 := execOpen_eval B s (mkInsertQuery s.table_name names) vals hc ho
    have h2 := flushLoop_open B s hc ho rest
    simp [flushLoop, insert_data, h1, h2, rowEvent]

theorem execute_buffered_inserts_eval (B : Backend) (s : OpState)
    (h : B.connectOk = true) :
    execute_buffered_inserts B s = Except.ok ((),
      { s with
        connection := Handle.hClosed
        cursorSet := true
        insert_buffer := [] },
      Event.connect :: s.insert_buffer.map (rowEvent B s.table_name) ++
        [Event.commit, Event.disconnect]) := by
  have hopen : ({ s with connection := Handle.hOpen, cursorSet := true } :
      OpState).connection = Handle.hOpen := rfl
  have hcur : ({ s with connection := Handle.hOpen, cursorSet := true } :
      OpState).cursorSet = true := rfl
  have hloop := flushLoop_open B
    { s with connection := Handle.hOpen, cursorSet := true } hcur hopen
    s.insert_buffer
  simp [execute_buffered_inserts, connect_eval B s h, hloop, commit,
    disconnect]

theorem execute_buffered_inserts_noConnect (B : Backend) (s : OpState)
    (h : B.connectOk = false) :
    execute_buffered_inserts B s =
      Except.error (PyExc.connectionError, s) := by
  simp [execute_buffered_inserts, connect, h]

/-- C1: when `buffer_insert` makes the pending-row count reach the configured
threshold, exactly one automatic flush runs before it returns: the flush
connects once, attempts one INSERT per buffered row in original insertion
(FIFO) order, commits exactly once, disconnects, and leaves the buffer
empty. -/
theorem threshold_insert_flushes_once (B : Backend) (s : OpState)
    (names : List String) (vals : List Value) (hok : B.connectOk = true)
    (hfull : s.insert_buffer.length + 1 = s.buffer_limit) :
    buffer_insert B s names vals = Except.ok ((),
      { s with
        connection := Handle.hClosed
        cursorSet := true
        insert_buffer := [] },
      Event.connect ::
        (s.insert_buffer ++ [(names, vals)]).map (rowEvent B s.table_name) ++
        [Event.commit, Event.disconnect]) ∧
    (Event.connect ::
        (s.insert_buffer ++ [(names, vals)]).map (rowEvent B s.table_name) ++
        [Event.commit, Event.disconnect]).count Event.commit = 1 ∧
    (Event.connect ::
        (s.insert_buffer ++ [(names, vals)]).map (rowEvent B s.table_name) ++
        [Event.commit, Event.disconnect]).count Event.connect = 1 := by
  have hzc : List.count Event.commit
      ((s.insert_buffer ++ [(names, vals)]).map (rowEvent B s.table_name))
      = 0 := by
    rw [List.count_eq_zero]
    intro hmem
    obtain ⟨r, _, hr⟩ := List.mem_map.mp hmem
    simp [rowEvent] at hr
  have hzn : List.count Event.connect
      ((s.insert_buffer ++ [(names, vals)]).map (rowEvent B s.table_name))
      = 0 := by
    rw [List.count_eq_zero]
    intro hmem
    obtain ⟨r, _, hr⟩ := List.mem_map.mp hmem
    simp [rowEvent] at hr
  refine ⟨?_, ?_, ?_⟩
  · have heval := execute_buffered_inserts_eval B
      { s with insert_buffer := s.insert_buffer ++ [(names, vals)] } hok
    simp [buffer_insert, heval]
    omega
  · simp only [List.count_cons, List.count_append, hzc]
    decide
  · simp only [List.count_cons, List.count_append, hzn]
    decide

/-- C1 witness: a one-row threshold, hit by the first insert. -/
theorem threshold_insert_flushes_once_witness :
    buffer_insert okBackend { init "db" "t" with buffer_limit := 1 } ["a"]
        [Value.intV 1] = Except.ok ((),
      { init "db" "t" with
        connection := Handle.hClosed
        cursorSet := true
        buffer_limit := 1 },
      [Event.connect, rowEvent okBackend "t" (["a"], [Value.intV 1]),
       Event.commit, Event.disconnect]) ∧
    ([Event.connect, rowEvent okBackend "t" (["a"], [Value.intV 1]),
       Event.commit, Event.disconnect]).count Event.commit = 1 ∧
    ([Event.connect, rowEvent okBackend "t" (["a"], [Value.intV 1]),
       Event.commit, Event.disconnect]).count Event.connect = 1 :=
  threshold_insert_flushes_once okBackend
    { init "db" "t" with buffer_limit := 1 } ["a"] [Value.intV 1] rfl rfl

/-- C10: whenever `buffer_insert` returns normally (and the limit is
positive), the pending-row count is strictly below the configured limit:
either the appended row kept it below, or the flush emptied the buffer. -/
theorem buffer_stays_below_limit (B : Backend) (s : OpState)
    (names : List String) (vals : List Value) (s' : OpState)
    (tr : List Event) (hpos : 0 < s.buffer_limit)
    (h : buffer_insert B s names vals = Except.ok ((), s', tr)) :
    s'.insert_buffer.length < s.buffer_limit := by
  simp only [buffer_insert] at h
  split at h
  · cases hok : B.connectOk
    · rw [execute_buffered_inserts_noConnect _ _ hok] at h
      cases h
    · rw [execute_buffered_inserts_eval _ _ hok] at h
      simp only [Except.ok.injEq, Prod.mk.injEq, true_and] at h
      obtain ⟨hs', _⟩ := h
      subst hs'
      simpa using hpos
  · rename_i hlt
    simp only [ge_iff_le, not_le] at hlt
    simp only [Except.ok.injEq, Prod.mk.injEq, true_and] at h
    obtain ⟨hs', _⟩ := h
    subst hs'
    simpa using hlt

/-- C10 witness: one-row limit; the insert triggers a flush and the
resulting buffer (empty) is below the limit. -/
theorem buffer_stays_below_limit_witness :
    (({ init "db" "t" with
        connection := Handle.hClosed
        cursorSet := true
        buffer_limit := 1 } : OpState)).insert_buffer.length < 1 :=
  buffer_stays_below_limit okBackend
    { init "db" "t" with buffer_limit := 1 } ["a"] [Value.intV 1] _ _
    (by decide) rfl

/-- C2 counterexample: one buffered row whose INSERT the engine rejects
(the `false` flag on the `exec` event); the error is caught and only
reported, the flush still commits and returns normally, and the buffer is
cleared — it is NOT preserved for retry. -/
theorem flush_clears_buffer_despite_row_failure :
    execute_buffered_inserts rejectBackend
        { init "db" "t" with insert_buffer := [(["a"], [Value.intV 1])] } =
      Except.ok ((),
        { init "db" "t" with
          connection := Handle.hClosed
          cursorSet := true },
        [Event.connect,
         Event.exec (mkInsertQuery "t" ["a"]) [Value.intV 1] false,
         Event.commit, Event.disconnect]) ∧
    ({ init "db" "t" with
       connection := Handle.hClosed
       cursorSet := true } : OpState).insert_buffer = [] := ⟨rfl, rfl⟩

/-- C2 (amended): after a flush that completes, the buffer is always
cleared — even when some row INSERTs failed and were merely reported; the
buffer is preserved exactly when the flush raises, i.e. when opening the
connection fails, in which case the whole operator state is unchanged. -/
theorem flush_buffer_retention_policy (B : Backend) (s : OpState) :
    (B.connectOk = true → ∃ tr, execute_buffered_inserts B s =
      Except.ok ((),
        { s with
          connection := Handle.hClosed
          cursorSet := true
          insert_buffer := [] }, tr)) ∧
    (B.connectOk = false →
      execute_buffered_inserts B s =
        Except.error (PyExc.connectionError, s)) :=
  ⟨fun h => ⟨_, execute_buffered_inserts_eval B s h⟩,
   fun h => execute_buffered_inserts_noConnect B s h⟩

/-- C2 (amended) witness: a rejecting-engine flush clears the buffer; a
failed connect leaves the buffered row in place. -/
theorem flush_buffer_retention_policy_witness :
    (∃ tr, execute_buffered_inserts rejectBackend
        { init "db" "t" with insert_buffer := [(["b"], [Value.intV 2])] } =
      Except.ok ((),
        { init "db" "t" with
          connection := Handle.hClosed
          cursorSet := true
          insert_buffer := [] }, tr)) ∧
    execute_buffered_inserts noConnBackend
        { init "db" "t" with insert_buffer := [(["b"], [Value.intV 2])] } =
      Except.error (PyExc.connectionError,
        { init "db" "t" with insert_buffer := [(["b"], [Value.intV 2])] }) :=
  ⟨(flush_buffer_retention_policy rejectBackend
      { init "db" "t" with insert_buffer := [(["b"], [Value.intV 2])] }).1 rfl,
   (flush_buffer_retention_policy noConnBackend
      { init "db" "t" with insert_buffer := [(["b"], [Value.intV 2])] }).2 rfl⟩

/-- C4: scoped use: `__enter__` opens the connection; `__exit__` commits the
transaction on a normal exit, rolls it back on an error exit, and
disconnects in both cases, so the handle ends up closed however the scope
is exited. -/
theorem scoped_use_commit_rollback_disconnect (B : Backend) (s : OpState)
    (h : B.connectOk = true) :
    enterScope B s = Except.ok ((),
      { s with connection := Handle.hOpen, cursorSet := true },
      [Event.connect]) ∧
    exitScope { s with connection := Handle.hOpen, cursorSet := true }
        false =
      Except.ok ((),
        { s with connection := Handle.hClosed, cursorSet := true },
        [Event.commit, Event.disconnect]) ∧
    exitScope { s with connection := Handle.hOpen, cursorSet := true }
        true =
      Except.ok ((),
        { s with connection := Handle.hClosed, cursorSet := true },
        [Event.rollback, Event.disconnect]) := by
  refine ⟨connect_eval B s h, ?_, ?_⟩ <;>
    simp [exitScope, commit, rollback, disconnect]

/-- C4 witness: a concrete scope over a reachable backend. -/
theorem scoped_use_commit_rollback_disconnect_witness :
    enterScope okBackend (init "db" "t") = Except.ok ((),
      { init "db" "t" with connection := Handle.hOpen, cursorSet := true },
      [Event.connect]) ∧
    exitScope { init "db" "t" with
        connection := Handle.hOpen
        cursorSet := true } false =
      Except.ok ((),
        { init "db" "t" with
          connection := Handle.hClosed
          cursorSet := true },
        [Event.commit, Event.disconnect]) ∧
    exitScope { init "db" "t" with
        connection := Handle.hOpen
        cursorSet := true } true =
      Except.ok ((),
        { init "db" "t" with
          connection := Handle.hClosed
          cursorSet := true },
        [Event.rollback, Event.disconnect]) :=
  scoped_use_commit_rollback_disconnect okBackend (init "db" "t") rfl

/-- C6 counterexample: connect then disconnect; invoking the executor on the
resulting (disconnected) instance does NOT fail: the backend's
closed-database error is a `sqlite3.Error`, so it is caught and only
reported, and the call returns normally without the statement ever
reaching the engine (no `exec` event). -/
theorem executor_after_disconnect_returns_normally :
    ∃ s1 : OpState,
      connect okBackend (init "db" "t") =
        Except.ok ((), s1, [Event.connect]) ∧
      execute_with_handling okBackend (disconnect s1).1 "SELECT 1" [] =
        Except.ok (ExecOutcome.reported, (disconnect s1).1, []) :=
  ⟨_, rfl, rfl⟩

/-- C6 (amended): invoking the executor before any connection was ever
opened raises an `AttributeError` on the `None` cursor (not a dedicated
"not connected" error); invoking it after `disconnect` does not fail at
all — the closed-database error is caught and merely reported, and the
call returns normally with no backend interaction.  In neither case does
the executor silently reconnect. -/
theorem executor_without_open_connection (B : Backend) (s : OpState)
    (q : String) (p : List Value) :
    (s.cursorSet = false →
      execute_with_handling B s q p =
        Except.error (PyExc.attributeError, s)) ∧
    (s.cursorSet = true → s.connection ≠ Handle.hOpen →
      execute_with_handling B s q p =
        Except.ok (ExecOutcome.reported, s, [])) := by
  constructor
  · intro hc
    simp [execute_with_handling, hc]
  · intro hc hn
    simp [execute_with_handling, hc, hn]

/-- C6 (amended) witness: a never-connected instance and a disconnected
instance. -/
theorem executor_without_open_connection_witness :
    execute_with_handling okBackend (init "db" "t") "SELECT 1" [] =
      Except.error (PyExc.attributeError, init "db" "t") ∧
    execute_with_handling okBackend
        { init "db" "t" with
          connection := Handle.hClosed
          cursorSet := true } "SELECT 1" [] =
      Except.ok (ExecOutcome.reported,
        { init "db" "t" with
          connection := Handle.hClosed
          cursorSet := true }, []) :=
  ⟨(executor_without_open_connection okBackend (init "db" "t")
      "SELECT 1" []).1 rfl,
   (executor_without_open_connection okBackend
      { init "db" "t" with
        connection := Handle.hClosed
        cursorSet := true } "SELECT 1" []).2 rfl (by decide)⟩

/-- C7: over an open connection the executor always returns normally: the
statement reaches the engine exactly once, and it took effect precisely
when the engine accepted it — an engine rejection is reported in the
outcome, never raised. -/
theorem executor_nonfatal_on_backend_failure (B : Backend) (s : OpState)
    (q : String) (p : List Value) (hc : s.cursorSet = true)
    (ho : s.connection = Handle.hOpen) :
    ∃ out : ExecOutcome,
      execute_with_handling B s q p =
        Except.ok (out, s, [Event.exec q p (B.stmtOk q p)]) ∧
      (out = ExecOutcome.success ↔ B.stmtOk q p = true) := by
  refine ⟨_, execOpen_eval B s q p hc ho, ?_⟩
  by_cases hs : B.stmtOk q p <;> simp [hs]

/-- C7 witness: an engine that rejects the statement; the executor still
returns normally with a reported outcome. -/
theorem executor_nonfatal_witness :
    ∃ out : ExecOutcome,
      execute_with_handling rejectBackend
          { init "db" "t" with
            connection := Handle.hOpen
            cursorSet := true }
          "INSERT INTO t (a) VALUES (?)" [Value.intV 1] =
        Except.ok (out,
          { init "db" "t" with
            connection := Handle.hOpen
            cursorSet := true },
          [Event.exec "INSERT INTO t (a) VALUES (?)" [Value.intV 1]
            false]) ∧
      (out = ExecOutcome.success ↔ false = true) :=
  executor_nonfatal_on_backend_failure rejectBackend
    { init "db" "t" with connection := Handle.hOpen, cursorSet := true }
    "INSERT INTO t (a) VALUES (?)" [Value.intV 1] rfl rfl

theorem get_table_info_uncached (B : Backend) (s : OpState)
    (h : tableInfoFalsy s.table_info = true) (hok : B.connectOk = true) :
    get_table_info B s = Except.ok (B.schema,
      { s with
        connection := Handle.hClosed
        cursorSet := true
        table_info := some B.schema },
      [Event.connect, Event.metaQuery, Event.disconnect]) := by
  simp [get_table_info, h, connect_eval B s hok, disconnect]

theorem get_table_info_cached (B : Backend) (s : OpState)
    (h : s.table_info = some B.schema) (hne : B.schema ≠ []) :
    get_table_info B s = Except.ok (B.schema, s, []) := by
  simp [get_table_info, tableInfoFalsy, h, hne]

theorem iterGetTableInfo_cached (B : Backend) (hne : B.schema ≠ []) :
    ∀ (m : Nat) (s : OpState), s.table_info = some B.schema →
      iterGetTableInfo B m s =
        Except.ok (List.replicate m B.schema, s, [])
  | 0, _, _ => rfl
  | m + 1, s, h => by
    have h1 := get_table_info_cached B s h hne
    have h2 := iterGetTableInfo_cached B hne m s h
    simp [iterGetTableInfo, h1, h2, List.replicate_succ]

/-- C3 counterexample: a table whose metadata query returns an empty column
list.  `if not self.table_info` treats the cached empty list as "not yet
fetched", so each of the two calls issues its own metadata query: two
`metaQuery` events, not one. -/
theorem empty_schema_requeries_every_call :
    iterGetTableInfo okBackend 2 (init "db" "t") =
      Except.ok ([[], []],
        { init "db" "t" with
          connection := Handle.hClosed
          cursorSet := true
          table_info := some [] },
        [Event.connect, Event.metaQuery, Event.disconnect,
         Event.connect, Event.metaQuery, Event.disconnect]) ∧
    ([Event.connect, Event.metaQuery, Event.disconnect, Event.connect,
      Event.metaQuery, Event.disconnect]).count Event.metaQuery = 2 :=
  ⟨rfl, by decide⟩

/-- C3 (amended): for a table whose metadata has at least one column, `n ≥ 1`
calls of `get_table_info` on a fresh instance issue exactly one backend
metadata query: the first call fetches and caches the column list, every
later call returns the cache with no backend interaction at all.  For a
table whose metadata is empty the cache test (`not self.table_info`) treats
the empty list as unpopulated and every call re-queries. -/
theorem metadata_queried_once_when_nonempty (B : Backend) (db t : String)
    (n : Nat) (hok : B.connectOk = true) (hne : B.schema ≠ [])
    (hn : 1 ≤ n) :
    iterGetTableInfo B n (init db t) =
      Except.ok (List.replicate n B.schema,
        { init db t with
          connection := Handle.hClosed
          cursorSet := true
          table_info := some B.schema },
        [Event.connect, Event.metaQuery, Event.disconnect]) ∧
    ([Event.connect, Event.metaQuery, Event.disconnect]).count
      Event.metaQuery = 1 := by
  obtain ⟨m, rfl⟩ : ∃ m, n = m + 1 := ⟨n - 1, by omega⟩
  constructor
  · have h1 := get_table_info_uncached B (init db t) rfl hok
    have h2 := iterGetTableInfo_cached B hne m
      { init db t with
        connection := Handle.hClosed
        cursorSet := true
        table_info := some B.schema } rfl
    simp [iterGetTableInfo, h1, h2, List.replicate_succ]
  · decide

/-- C3 (amended) witness: three calls on a one-column table, one query. -/
theorem metadata_queried_once_witness :
    iterGetTableInfo idBackend 3 (init "db" "t") =
      Except.ok ([[idCol], [idCol], [idCol]],
        { init "db" "t" with
          connection := Handle.hClosed
          cursorSet := true
          table_info := some [idCol] },
        [Event.connect, Event.metaQuery, Event.disconnect]) ∧
    ([Event.connect, Event.metaQuery, Event.disconnect]).count
      Event.metaQuery = 1 :=
  metadata_queried_once_when_nonempty idBackend "db" "t" 3 rfl
    (by decide) (by decide)

/-- C8: `get_primary_key` never raises: it returns the name of the column
whose pk flag is 1 when that column is unique, and `None` when no column
is flagged. -/
theorem primary_key_flagged_or_none (B : Backend) (db t : String)
    (hok : B.connectOk = true) :
    ∃ (r : Option String) (s' : OpState) (tr : List Event),
      get_primary_key B (init db t) = Except.ok (r, s', tr) ∧
      ((∀ c ∈ B.schema, c.pk ≠ 1) → r = none) ∧
      (∀ c ∈ B.schema, c.pk = 1 →
        (∀ c' ∈ B.schema, c'.pk = 1 → c' = c) → r = some c.name) := by
  have h1 := get_table_info_uncached B (init db t) rfl hok
  refine ⟨((B.schema.filter fun c => c.pk == 1).map Column.name).head?,
    { init db t with
      connection := Handle.hClosed
      cursorSet := true
      table_info := some B.schema },
    [Event.connect, Event.metaQuery, Event.disconnect], ?_, ?_, ?_⟩
  · simp [get_primary_key, h1]
  · intro hno
    have hf : B.schema.filter (fun c => c.pk == 1) = [] := by
      rw [List.filter_eq_nil_iff]
      intro c hc
      simpa using hno c hc
    simp [hf]
  · intro c hc hpk huniq
    have hmem : c ∈ B.schema.filter (fun c => c.pk == 1) := by
      simp [List.mem_filter, hc, hpk]
    obtain ⟨hd, tl, hl⟩ :=
      List.exists_cons_of_ne_nil (List.ne_nil_of_mem hmem)
    have hhd : hd ∈ B.schema.filter (fun c => c.pk == 1) := by
      rw [hl]; exact List.mem_cons_self _ _
    have hhd2 := List.mem_filter.mp hhd
    have heq : hd = c := huniq hd hhd2.1 (by simpa using hhd2.2)
    rw [hl]
    simp [heq]

/-- C8 witness: a keyless one-column table yields `None` without raising. -/
theorem primary_key_keyless_witness :
    ∃ (r : Option String) (s' : OpState) (tr : List Event),
      get_primary_key keylessBackend (init "db" "t") =
        Except.ok (r, s', tr) ∧ r = none := by
  obtain ⟨r, s', tr, h1, h2, _⟩ :=
    primary_key_flagged_or_none keylessBackend "db" "t" rfl
  exact ⟨r, s', tr, h1, h2 (by decide)⟩

theorem tupleGet_nonneg (c : Column) (i : Int) (h0 : 0 ≤ i) (h5 : i ≤ 5) :
    tupleGet c i =
      Except.ok ((Column.tuple c).getD i.toNat Value.nullV) := by
  have hlt : i < ((Column.tuple c).length : Int) := by
    simp [Column.tuple]
    omega
  simp [tupleGet, pyIndex, h0, hlt]

theorem tupleGet_neg_one (c : Column) :
    tupleGet c (-1) = Except.ok (Value.intV c.pk) := rfl

theorem projectColumns_inrange (i : Int) (h0 : 0 ≤ i) (h5 : i ≤ 5) :
    ∀ cols, projectColumns cols i = Except.ok (cols.map fun c =>
      (c.name, (Column.tuple c).getD i.toNat Value.nullV))
  | [] => rfl
  | c :: rest => by
    simp [projectColumns, tupleGet_nonneg c i h0 h5,
      projectColumns_inrange i h0 h5 rest]

theorem projectColumns_neg_one :
    ∀ cols, projectColumns cols (-1) =
      Except.ok (cols.map fun c => (c.name, Value.intV c.pk))
  | [] => rfl
  | c :: rest => by
    simp [projectColumns, tupleGet_neg_one c, projectColumns_neg_one rest]

/-- C5 counterexample: the selector `-1` is outside the defined set
{0,…,5}, yet `get_table_column_info` does not fail: Python's negative
tuple indexing makes `column[-1]` the primary-key flag, and the call
returns a mapping. -/
theorem negative_selector_not_rejected :
    get_table_column_info idBackend (init "db" "t") (some (-1)) =
      Except.ok ([("id", Value.intV 1)],
        { init "db" "t" with
          connection := Handle.hClosed
          cursorSet := true
          table_info := some [idCol] },
        [Event.connect, Event.metaQuery, Event.disconnect]) := rfl

/-- C5 (amended): for selectors 0–5 the call returns the mapping from
column name to that descriptor field; a missing selector raises
`TypeError` and a selector above 5 raises `IndexError` (the validated
upper bound); but negative selectors are NOT rejected: `-1` indexes the
descriptor tuple from the end and returns the primary-key flag for every
column. -/
theorem column_info_selector_validation (B : Backend) (db t : String)
    (i : Int) (hok : B.connectOk = true) :
    (0 ≤ i → i ≤ 5 →
      get_table_column_info B (init db t) (some i) = Except.ok
        (B.schema.map fun c =>
          (c.name, (Column.tuple c).getD i.toNat Value.nullV),
         { init db t with
           connection := Handle.hClosed
           cursorSet := true
           table_info := some B.schema },
         [Event.connect, Event.metaQuery, Event.disconnect])) ∧
    (5 < i →
      get_table_column_info B (init db t) (some i) =
        Except.error (PyExc.indexError, init db t)) ∧
    (get_table_column_info B (init db t) none =
      Except.error (PyExc.typeError, init db t)) ∧
    (get_table_column_info B (init db t) (some (-1)) = Except.ok
      (B.schema.map fun c => (c.name, Value.intV c.pk),
       { init db t with
         connection := Handle.hClosed
         cursorSet := true
         table_info := some B.schema },
       [Event.connect, Event.metaQuery, Event.disconnect])) := by
  have h1 := get_table_info_uncached B (init db t) rfl hok
  refine ⟨?_, ?_, rfl, ?_⟩
  · intro h0 h5
    have hng : ¬ (5 : Int) < i := by omega
    simp [get_table_column_info, hng, get_column_info, h1,
      projectColumns_inrange i h0 h5]
  · intro h5
    simp [get_table_column_info, h5]
  · have hng : ¬ (5 : Int) < -1 := by decide
    simp [get_table_column_info, hng, get_column_info, h1,
      projectColumns_neg_one]

/-- C5 (amended) witness: selector 5 returns the pk mapping; selector 6
raises `IndexError`. -/
theorem column_info_selector_validation_witness :
    get_table_column_info idBackend (init "db" "t") (some 5) = Except.ok
      ([("id", Value.intV 1)],
       { init "db" "t" with
         connection := Handle.hClosed
         cursorSet := true
         table_info := some [idCol] },
       [Event.connect, Event.metaQuery, Event.disconnect]) ∧
    get_table_column_info idBackend (init "db" "t") (some 6) =
      Except.error (PyExc.indexError, init "db" "t") :=
  ⟨(column_info_selector_validation idBackend "db" "t" 5 rfl).1
      (by decide) (by decide),
   (column_info_selector_validation idBackend "db" "t" 6 rfl).2.1
      (by decide)⟩

/-- C9 counterexample: `buffer_insert` with 2 column names but only 1 value
raises nothing and stores the mismatched pair in the buffer — no
`InvalidArgument` validation exists. -/
theorem mismatched_pair_is_stored :
    buffer_insert okBackend (init "db" "t") ["a", "b"] [Value.intV 1] =
      Except.ok ((),
        { init "db" "t" with
          insert_buffer := [(["a", "b"], [Value.intV 1])] },
        []) := rfl

/-- C9 (amended): `buffer_insert` performs no validation of the
name/value pairing at all: while the buffer stays below the threshold it
appends the pair unconditionally and returns normally, even when the two
sequences have different lengths; the mismatch surfaces only later, at
flush time, as an engine-level binding error that the executor swallows. -/
theorem buffer_insert_no_length_validation (B : Backend) (s : OpState)
    (names : List String) (vals : List Value)
    (_hmis : names.length ≠ vals.length)
    (hroom : s.insert_buffer.length + 1 < s.buffer_limit) :
    buffer_insert B s names vals = Except.ok ((),
      { s with insert_buffer := s.insert_buffer ++ [(names, vals)] },
      []) := by
  have hlt : ¬ (({ s with
      insert_buffer := s.insert_buffer ++ [(names, vals)] } :
      OpState).insert_buffer.length ≥
      ({ s with insert_buffer := s.insert_buffer ++ [(names, vals)] } :
      OpState).buffer_limit) := by
    simp
    omega
  simp [buffer_insert, hlt]
  intro h
  exact absurd h (by omega)

/-- C9 (amended) witness: a fresh instance stores a 2-names/1-value pair. -/
theorem buffer_insert_no_length_validation_witness :
    buffer_insert okBackend (init "db" "t") ["a", "b"] [Value.intV 1] =
      Except.ok ((),
        { init "db" "t" with
          insert_buffer := [(["a", "b"], [Value.intV 1])] },
        []) ∧ (["a", "b"] : List String).length ≠
          ([Value.intV 1] : List Value).length :=
  ⟨buffer_insert_no_length_validation okBackend (init "db" "t")
      ["a", "b"] [Value.intV 1] (by decide) (by decide),
   by decide⟩

end SQLiteOp
